import Mathlib

/-!
Verification development for the kos-zbot conversation subsystem.

Shallow embedding of three Python source files:
  - kos_zbot/conversation/voice/tools.py      (ToolManager: the Action Dispatcher)
  - kos_zbot/conversation/voice/processor.py  (AudioProcessor: the Realtime Session Bridge)
  - kos_zbot/conversation/config.py           (Device/Settings Store)

External collaborators (the realtime transport, the camera subprocess, the
vision model, the wall clock) are modelled as explicit inputs: an environment
record carries each collaborator outcome, and every operation the code submits
to the connection is recorded in an output trace instead of performed.
Asyncio signal emission (the pyee event-emitter `emit` calls) is likewise
recorded as an output trace of signals, in emission order.
-/

/- ### Base64 (Python `base64.b64encode` / `base64.b64decode`)

Bytes are `Nat` values below 256.  Python `b64decode` (default
`validate=False`) discards characters outside the alphabet and the padding
character, then decodes 4-character groups; an input whose filtered length is
not a multiple of 4 raises, modelled as `none`. -/

def b64CharVal (c : Char) : Option Nat :=
  if 65 ≤ c.toNat ∧ c.toNat ≤ 90 then some (c.toNat - 65)
  else if 97 ≤ c.toNat ∧ c.toNat ≤ 122 then some (c.toNat - 97 + 26)
  else if 48 ≤ c.toNat ∧ c.toNat ≤ 57 then some (c.toNat - 48 + 52)
  else if c = '+' then some 62
  else if c = '/' then some 63
  else none

def b64decodeChunks : List Char → Option (List Nat)
  | [] => some []
  | a :: b :: c :: d :: rest => do
      let va ← b64CharVal a
      let vb ← b64CharVal b
      if c = '=' ∧ d = '=' ∧ rest = [] then
        some [va * 4 + vb / 16]
      else do
        let vc ← b64CharVal c
        if d = '=' ∧ rest = [] then
          some [va * 4 + vb / 16, (vb % 16) * 16 + vc / 4]
        else do
          let vd ← b64CharVal d
          let tail ← b64decodeChunks rest
          some ((va * 4 + vb / 16) :: ((vb % 16) * 16 + vc / 4)
                :: ((vc % 4) * 64 + vd) :: tail)
  | _ => none

def b64decode (s : String) : Option (List Nat) :=
  b64decodeChunks (s.data.filter (fun c => (b64CharVal c).isSome || c = '='))

def b64Char (n : Nat) : Char :=
  if n < 26 then Char.ofNat (65 + n)
  else if n < 52 then Char.ofNat (97 + (n - 26))
  else if n < 62 then Char.ofNat (48 + (n - 52))
  else if n = 62 then '+'
  else '/'

def b64encodeChunks : List Nat → List Char
  | [] => []
  | [x] => [b64Char (x / 4), b64Char ((x % 4) * 16), '=', '=']
  | [x, y] => [b64Char (x / 4), b64Char ((x % 4) * 16 + y / 16),
               b64Char ((y % 16) * 4), '=']
  | x :: y :: z :: rest =>
      b64Char (x / 4) :: b64Char ((x % 4) * 16 + y / 16)
        :: b64Char ((y % 16) * 4 + z / 64) :: b64Char (z % 64)
        :: b64encodeChunks rest

def b64encode (bytes : List Nat) : String :=
  String.mk (b64encodeChunks bytes)

/- ### Settings store (config.py)

`DEFAULT_CONFIG` is the module-level default record.  A stored configuration
file is a JSON object whose known keys may each be present or absent
(`StoredConfig`); `load_config` on an existing, parseable file fills every
key of `DEFAULT_CONFIG` that the file lacks with the default value.  Saving
(`json.dump` in `create_config` / `update_config`) writes all keys of the
in-memory record; JSON serialisation is lossless for the integer, decimal
and string values involved, so saving is modelled as marking every field
present.  `volume` values are modelled as rationals. -/

structure Config where
  microphone_id : Int
  speaker_id : Int
  volume : ℚ
  environment : String
deriving DecidableEq, Repr

def DEFAULT_CONFIG : Config :=
  { microphone_id := 1
    speaker_id := 2
    volume := 35 / 100
    environment := "default" }

structure StoredConfig where
  microphone_id : Option Int
  speaker_id : Option Int
  volume : Option ℚ
  environment : Option String
deriving DecidableEq, Repr

def save_config (c : Config) : StoredConfig :=
  { microphone_id := some c.microphone_id
    speaker_id := some c.speaker_id
    volume := some c.volume
    environment := some c.environment }

def load_config (s : StoredConfig) : Config :=
  { microphone_id := s.microphone_id.getD DEFAULT_CONFIG.microphone_id
    speaker_id := s.speaker_id.getD DEFAULT_CONFIG.speaker_id
    volume := s.volume.getD DEFAULT_CONFIG.volume
    environment := s.environment.getD DEFAULT_CONFIG.environment }

/- ### Action Dispatcher (tools.py, class ToolManager)

A `ToolEnv` carries the outcome of each external collaborator a handler may
consult: the camera subprocess (`libcamera-jpeg` run: JPEG bytes on success,
the stringified CalledProcessError on failure), the vision model call (the
stripped-description source text on success, the stringified exception on
failure), and the formatted wall-clock string (`time.strftime` result).

Every operation submitted on the realtime connection is recorded as a
`ConnOp`.  `ConnOp.itemCreate` is one `conversation.item.create` call with a
`function_call_output` item (call id, output text). -/

structure ToolDefinition where
  type : String
  name : String
  description : String
deriving DecidableEq, Repr

def get_tool_definitions : List ToolDefinition :=
  [ { type := "function"
      name := "wave"
      description := "Make Z-Bot wave it\x27s right hand. Use this whenever you want to greet the user, say goodbye to the user, or acknowledge a user\x27s request to wave." },
    { type := "function"
      name := "get_current_time"
      description := "Get the current time of the day. Use this whenever the time will aid in the conversation, or to acknowledge a user\x27s request to know the time." },
    { type := "function"
      name := "describe_surroundings"
      description := "Take a photo with the camera and describe what is visible in the surroundings" } ]

structure ToolEnv where
  cameraResult : Except String (List Nat)
  visionResult : Except String String
  currentTime : String
deriving Repr

inductive ToolHandler where
  | wave
  | getCurrentTime
  | describeSurroundings
deriving DecidableEq, Repr

/-- The `handlers` dict built inside `ToolManager.handle_tool_call`, as the
lookup function `dict.get` denotes (string key to handler, `none` when the
key is absent). -/
def handlers (name : String) : Option ToolHandler :=
  if name = "wave" then some ToolHandler.wave
  else if name = "get_current_time" then some ToolHandler.getCurrentTime
  else if name = "describe_surroundings" then some ToolHandler.describeSurroundings
  else none

/-- The session configuration payload submitted by `conn.session.update` in
`AudioProcessor._handle_session_created`.  The real payload also carries the
fixed SYSTEM_PROMPT persona text in an `instructions` field; that constant
English string is examined by no operation and is elided here. -/
structure SessionConfigMsg where
  voice : String
  turnDetectionType : String
  turnDetectionThreshold : ℚ
  tools : List ToolDefinition
deriving DecidableEq, Repr

inductive ConnOp where
  | sessionUpdate (cfg : SessionConfigMsg)
  | itemCreate (call_id : String) (output : String)
  | appendAudio (audio : String)
  | responseCreate
  | sendCancel
deriving DecidableEq, Repr

def _create_tool_response (hasConn : Bool) (call_id output : String) : List ConnOp :=
  if hasConn then [ConnOp.itemCreate call_id output] else []

def _handle_wave (hasConn : Bool) (call_id : String) : List ConnOp :=
  _create_tool_response hasConn call_id "Waving my right hand"

def _handle_get_current_time (hasConn : Bool) (env : ToolEnv) (call_id : String) : List ConnOp :=
  _create_tool_response hasConn call_id ("The current time is " ++ env.currentTime ++ ".")

/-- `ToolManager.capture_jpeg_cli`: runs the `libcamera-jpeg` subprocess and
returns the JPEG bytes; a `CalledProcessError e` is re-raised as
`RuntimeError("Camera capture failed: " + str(e))`. -/
def capture_jpeg_cli (env : ToolEnv) : Except String (List Nat) :=
  match env.cameraResult with
  | Except.ok data => Except.ok data
  | Except.error e => Except.error ("Camera capture failed: " ++ e)

/-- `ToolManager._handle_describe_surroundings`: inside a try block, first
submits a "Let me look..." response for the call id, then captures a JPEG,
sends it to the vision model and submits "I see " plus the stripped
description; any exception is caught and a response
"Sorry, I had trouble processing the image: " plus the exception text is
submitted instead for the same call id. -/
def _handle_describe_surroundings (hasConn : Bool) (env : ToolEnv) (call_id : String) : List ConnOp :=
  _create_tool_response hasConn call_id "Let me look..." ++
    match capture_jpeg_cli env with
    | Except.error e =>
        _create_tool_response hasConn call_id
          ("Sorry, I had trouble processing the image: " ++ e)
    | Except.ok _ =>
        match env.visionResult with
        | Except.error e =>
            _create_tool_response hasConn call_id
              ("Sorry, I had trouble processing the image: " ++ e)
        | Except.ok content =>
            _create_tool_response hasConn call_id ("I see " ++ content.trim)

/-- The tool-call event payload of a
`response.function_call_arguments.done` stream event. -/
structure ToolCallEvent where
  name : String
  call_id : String
deriving DecidableEq, Repr

/-- `ToolManager.handle_tool_call`: returns `False` with no submission when
no connection is held; otherwise looks the event name up in the handlers
dict, awaits the handler and returns `True` when found, and returns `False`
(printing "Unknown tool") without submitting anything when absent.  The
returned list records the connection operations the call submitted. -/
def handle_tool_call (hasConn : Bool) (env : ToolEnv) (event : ToolCallEvent) :
    Bool × List ConnOp :=
  if hasConn then
    match handlers event.name with
    | some ToolHandler.wave => (true, _handle_wave hasConn event.call_id)
    | some ToolHandler.getCurrentTime =>
        (true, _handle_get_current_time hasConn env event.call_id)
    | some ToolHandler.describeSurroundings =>
        (true, _handle_describe_surroundings hasConn env event.call_id)
    | none => (false, [])
  else (false, [])

/-- Number of `function_call_output` response items in a trace that carry
the given call id. -/
def responsesFor (call_id : String) (ops : List ConnOp) : Nat :=
  ops.countP (fun op =>
    match op with
    | ConnOp.itemCreate cid _ => cid == call_id
    | _ => false)

/- ### Realtime Session Bridge (processor.py, class AudioProcessor)

State fields mirror the mutable attributes the operations touch:
`connection` (the handle, opaque), `session` (set from `conn.session` on
`session.created` and from the event payload on `session.updated`),
`connected` (the `asyncio.Event`, read via `is_set`), and the ToolManager's
own `connection` attribute (present or not).  A fresh `AudioProcessor` has
no connection, no session, and the `connected` event unset.

Emitted pyee signals are recorded as a `Signal` trace in emission order.
An event whose handling raises (an audio delta whose payload is not valid
base64) aborts the receive loop, modelled as `none`. -/

inductive SessionVal where
  | connDefault
  | fromUpdate (payload : Nat)
deriving DecidableEq, Repr

structure ProcessorState where
  connection : Option Unit
  session : Option SessionVal
  connected : Bool
  toolManagerConn : Bool
deriving DecidableEq, Repr

/-- Attribute values set by `AudioProcessor.__init__`. -/
def initState : ProcessorState :=
  { connection := none
    session := none
    connected := false
    toolManagerConn := false }

inductive Signal where
  | sessionReady
  | audioToPlay (bytes : List Nat)
  | processingComplete
deriving DecidableEq, Repr

inductive ServerEvent where
  | sessionCreated
  | sessionUpdated (payload : Nat)
  | responseAudioDelta (delta : String)
  | responseDone
  | functionCallArgumentsDone (event : ToolCallEvent)
  | errorEvent (message : String)
deriving DecidableEq, Repr

/-- The payload of the `conn.session.update` call in
`AudioProcessor._handle_session_created`: voice "echo", server-VAD turn
detection with threshold 0.7, and the published tool schema. -/
def sessionConfigMsg : SessionConfigMsg :=
  { voice := "echo"
    turnDetectionType := "server_vad"
    turnDetectionThreshold := 7 / 10
    tools := get_tool_definitions }

/-- One iteration of the receive loop in `AudioProcessor.connect`: routes a
single stream event exactly as the if/elif chain does.  Returns the updated
state, the connection operations submitted while handling the event, and
the signals emitted, each in program order; `none` when handling raises. -/
def processEvent (env : ToolEnv) (st : ProcessorState) :
    ServerEvent → Option (ProcessorState × List ConnOp × List Signal)
  | ServerEvent.sessionCreated =>
      some ({ st with session := some SessionVal.connDefault },
            [ConnOp.sessionUpdate sessionConfigMsg],
            [Signal.sessionReady])
  | ServerEvent.sessionUpdated p =>
      some ({ st with session := some (SessionVal.fromUpdate p) }, [], [])
  | ServerEvent.responseAudioDelta delta =>
      match b64decode delta with
      | some bytes => some (st, [], [Signal.audioToPlay bytes])
      | none => none
  | ServerEvent.responseDone =>
      some (st, [], [Signal.processingComplete])
  | ServerEvent.functionCallArgumentsDone ev =>
      let r := handle_tool_call st.toolManagerConn env ev
      some (st, r.2 ++ [ConnOp.responseCreate], [])
  | ServerEvent.errorEvent _ =>
      some (st, [], [])

/-- The receive loop: consumes stream events one at a time until the stream
ends, concatenating the operation and signal traces. -/
def runLoop (env : ToolEnv) (st : ProcessorState) :
    List ServerEvent → Option (ProcessorState × List ConnOp × List Signal)
  | [] => some (st, [], [])
  | e :: rest => do
      let r1 ← processEvent env st e
      let r2 ← runLoop env r1.1 rest
      some (r2.1, r1.2.1 ++ r2.2.1, r1.2.2 ++ r2.2.2)

/-- The state mutations `AudioProcessor.connect` performs on entry, before
consuming any stream event: stores the connection handle, sets the
`connected` event, and hands the connection to the ToolManager. -/
def connectEntry (st : ProcessorState) : ProcessorState :=
  { st with connection := some ()
            connected := true
            toolManagerConn := true }

/-- `AudioProcessor.connect`, run against a given finite stream of server
events: entry mutations, then the receive loop to end of stream.  Nothing
is reset on exit. -/
def connect (env : ToolEnv) (st : ProcessorState) (events : List ServerEvent) :
    Option (ProcessorState × List ConnOp × List Signal) :=
  runLoop env (connectEntry st) events

/-- `AudioProcessor.process_audio` (the ingest operation): when the
`connected` event is not set, prints "Not connected to OpenAI API" and
returns, submitting nothing and touching no state; otherwise base64-encodes
the chunk and appends it to the input audio buffer.  The first component
reports the error message, the second the submitted operations. -/
def process_audio (st : ProcessorState) (audioBytes : List Nat) :
    Option String × List ConnOp :=
  if st.connected = false then (some "Not connected to OpenAI API", [])
  else (none, [ConnOp.appendAudio (b64encode audioBytes)])

/-- `AudioProcessor.cancel_response`: when a connection handle exists,
spawns a fire-and-forget task submitting one `response.cancel`; otherwise
does nothing. -/
def cancel_response (st : ProcessorState) : List ConnOp :=
  match st.connection with
  | some _ => [ConnOp.sendCancel]
  | none => []

/- Sample collaborator environment used for concrete runs. -/

def sampleEnv : ToolEnv :=
  { cameraResult := Except.error "boom"
    visionResult := Except.error "boom"
    currentTime := "10:30 AM" }

/- ### Trace-counting helpers -/

/-- Number of `session_ready` signals in a trace. -/
def countSessionReady (sigs : List Signal) : Nat :=
  sigs.countP (fun s =>
    match s with
    | Signal.sessionReady => true
    | _ => false)

/-- Number of configuration submissions (`session.update` calls) in a trace. -/
def countSessionUpdateOps (ops : List ConnOp) : Nat :=
  ops.countP (fun o =>
    match o with
    | ConnOp.sessionUpdate _ => true
    | _ => false)

/-- Number of `session.created` events in a stream. -/
def countSessionCreated (evs : List ServerEvent) : Nat :=
  evs.countP (fun e =>
    match e with
    | ServerEvent.sessionCreated => true
    | _ => false)

lemma countSessionUpdateOps_append (l1 l2 : List ConnOp) :
    countSessionUpdateOps (l1 ++ l2)
      = countSessionUpdateOps l1 + countSessionUpdateOps l2 :=
  List.countP_append _ _ _

lemma countSessionUpdateOps_create_tool_response (hc : Bool) (cid out : String) :
    countSessionUpdateOps (_create_tool_response hc cid out) = 0 := by
  cases hc <;> simp [_create_tool_response, countSessionUpdateOps]

lemma countSessionUpdateOps_handle_tool_call (hc : Bool) (env : ToolEnv)
    (ev : ToolCallEvent) :
    countSessionUpdateOps (handle_tool_call hc env ev).2 = 0 := by
  unfold handle_tool_call
  cases hc
  · simp [countSessionUpdateOps]
  · cases h : handlers ev.name with
    | none => simp [countSessionUpdateOps]
    | some th =>
        cases th <;>
          simp [_handle_wave, _handle_get_current_time,
                _handle_describe_surroundings,
                countSessionUpdateOps_append,
                countSessionUpdateOps_create_tool_response]
        cases capture_jpeg_cli env with
        | error e => simp [countSessionUpdateOps_create_tool_response]
        | ok d =>
            cases env.visionResult with
            | error e => simp [countSessionUpdateOps_create_tool_response]
            | ok c => simp [countSessionUpdateOps_create_tool_response]

lemma countSessionReady_append (l1 l2 : List Signal) :
    countSessionReady (l1 ++ l2)
      = countSessionReady l1 + countSessionReady l2 :=
  List.countP_append _ _ _

lemma countSessionCreated_cons (e : ServerEvent) (evs : List ServerEvent) :
    countSessionCreated (e :: evs)
      = (if e = ServerEvent.sessionCreated then 1 else 0)
          + countSessionCreated evs := by
  cases e <;> simp [countSessionCreated, List.countP_cons, Nat.add_comm]

lemma processEvent_counts (env : ToolEnv) (st : ProcessorState)
    (e : ServerEvent) (out : ProcessorState × List ConnOp × List Signal)
    (h : processEvent env st e = some out) :
    countSessionReady out.2.2
        = (if e = ServerEvent.sessionCreated then 1 else 0) ∧
    countSessionUpdateOps out.2.1
        = (if e = ServerEvent.sessionCreated then 1 else 0) ∧
    out.1.connected = st.connected := by
  cases e with
  | sessionCreated =>
      simp [processEvent] at h
      subst h
      simp [countSessionReady, countSessionUpdateOps]
  | sessionUpdated p =>
      simp [processEvent] at h
      subst h
      simp [countSessionReady, countSessionUpdateOps]
  | responseAudioDelta delta =>
      simp [processEvent] at h
      cases hd : b64decode delta with
      | none => rw [hd] at h; simp at h
      | some bytes =>
          rw [hd] at h
          simp at h
          subst h
          simp [countSessionReady, countSessionUpdateOps]
  | responseDone =>
      simp [processEvent] at h
      subst h
      simp [countSessionReady, countSessionUpdateOps]
  | functionCallArgumentsDone ev =>
      simp [processEvent] at h
      subst h
      refine ⟨by simp [countSessionReady], ?_, by simp⟩
      show countSessionUpdateOps
            ((handle_tool_call st.toolManagerConn env ev).2
              ++ [ConnOp.responseCreate])
          = if ServerEvent.functionCallArgumentsDone ev
              = ServerEvent.sessionCreated then 1 else 0
      rw [countSessionUpdateOps_append,
          countSessionUpdateOps_handle_tool_call]
      simp [countSessionUpdateOps]
  | errorEvent m =>
      simp [processEvent] at h
      subst h
      simp [countSessionReady, countSessionUpdateOps]

lemma runLoop_counts (env : ToolEnv) :
    ∀ (evs : List ServerEvent) (st : ProcessorState)
      (out : ProcessorState × List ConnOp × List Signal),
      runLoop env st evs = some out →
      countSessionReady out.2.2 = countSessionCreated evs ∧
      countSessionUpdateOps out.2.1 = countSessionCreated evs ∧
      out.1.connected = st.connected := by
  intro evs
  induction evs with
  | nil =>
      intro st out h
      simp [runLoop] at h
      subst h
      simp [countSessionReady, countSessionUpdateOps, countSessionCreated]
  | cons e rest ih =>
      intro st out h
      simp [runLoop, Option.bind_eq_some] at h
      obtain ⟨st1, ops1, sigs1, h1, st2, ops2, sigs2, h2, hout⟩ := h
      subst hout
      obtain ⟨c1, c2, c3⟩ := processEvent_counts env st e (st1, ops1, sigs1) h1
      obtain ⟨d1, d2, d3⟩ := ih st1 (st2, ops2, sigs2) h2
      simp only at c1 c2 c3 d1 d2 d3
      refine ⟨?_, ?_, ?_⟩
      · show countSessionReady (sigs1 ++ sigs2) = countSessionCreated (e :: rest)
        rw [countSessionReady_append, countSessionCreated_cons, c1, d1]
      · show countSessionUpdateOps (ops1 ++ ops2) = countSessionCreated (e :: rest)
        rw [countSessionUpdateOps_append, countSessionCreated_cons, c2, d2]
      · show st2.connected = st.connected
        rw [d3, c3]

/- ### Claim theorems -/

/-- Claim C4: for every audio chunk passed to the ingest operation while the
readiness flag (`connected`) is false, the call returns at once with the
reported "Not connected to OpenAI API" condition, forwards nothing to the
connection, and (the operation being read-only on the state) leaves the
Session state unchanged. -/
theorem c4_ingest_rejected_when_not_ready (conn : Option Unit)
    (sess : Option SessionVal) (tmc : Bool) (audio : List Nat) :
    process_audio
        { connection := conn, session := sess, connected := false,
          toolManagerConn := tmc } audio
      = (some "Not connected to OpenAI API", []) := rfl

/-- Claim C5: feeding the receive loop the event sequence
[session.created, session.updated, response.audio.delta(base64 "AAAA"),
response.done] emits exactly the signal sequence
[session_ready, audio_to_play(decoded "AAAA" = three zero bytes),
processing_complete], in that order, with session_ready strictly before the
first audio_to_play; the only connection operation is the one configuration
submission. -/
theorem c5_scenario_signal_order :
    connect sampleEnv initState
        [ServerEvent.sessionCreated, ServerEvent.sessionUpdated 1,
         ServerEvent.responseAudioDelta "AAAA", ServerEvent.responseDone]
      = some ({ connection := some (), session := some (SessionVal.fromUpdate 1),
                connected := true, toolManagerConn := true },
              [ConnOp.sessionUpdate sessionConfigMsg],
              [Signal.sessionReady, Signal.audioToPlay [0, 0, 0],
               Signal.processingComplete]) := by
  rfl

/-- Claim C8: saving the settings record
{microphone_id: 3, speaker_id: 5, volume: 1/2, environment: "demo"} and
loading it back yields the identical record; loading a stored file lacking
the "volume" key yields the default volume merged with the other stored
fields. -/
theorem c8_settings_roundtrip :
    load_config (save_config
        { microphone_id := 3, speaker_id := 5, volume := 1 / 2,
          environment := "demo" })
      = { microphone_id := 3, speaker_id := 5, volume := 1 / 2,
          environment := "demo" } ∧
    load_config
        { microphone_id := some 3, speaker_id := some 5, volume := none,
          environment := some "demo" }
      = { microphone_id := 3, speaker_id := 5,
          volume := DEFAULT_CONFIG.volume, environment := "demo" } :=
  ⟨rfl, rfl⟩

/-- Claim C9: the cancel operation with no connection handle submits
nothing (a no-op); with a connection handle it submits exactly one cancel
request (spawned fire-and-forget, not awaited). -/
theorem c9_cancel_response (sess : Option SessionVal) (cb tmc : Bool) :
    cancel_response
        { connection := none, session := sess, connected := cb,
          toolManagerConn := tmc } = [] ∧
    cancel_response
        { connection := some (), session := sess, connected := cb,
          toolManagerConn := tmc } = [ConnOp.sendCancel] :=
  ⟨rfl, rfl⟩

/-- Claim C10: the names advertised by the published tool schema are exactly
wave, get_current_time, describe_surroundings, and the handler-dict lookup
accepts exactly those names (both are constant definitions, hence identical
on every call). -/
theorem c10_advertised_equals_registered :
    get_tool_definitions.map (fun d => d.name)
      = ["wave", "get_current_time", "describe_surroundings"] ∧
    ∀ name : String,
      (handlers name).isSome
        = (name == "wave" || name == "get_current_time"
            || name == "describe_surroundings") := by
  refine ⟨rfl, fun name => ?_⟩
  unfold handlers
  by_cases h1 : name = "wave" <;> by_cases h2 : name = "get_current_time" <;>
    by_cases h3 : name = "describe_surroundings" <;> simp [h1, h2, h3]

/-- Claim C6: for every invocation name absent from the handlers dict, the
dispatch operation (a total function: no exception path exists) returns the
failure marker `false` with no submission, whatever the connection state and
collaborator outcomes; registered names with a connection return `true`, so
the failure result is distinguishable from success. -/
theorem c6_unknown_tool_never_raises (name call_id : String) (hasConn : Bool)
    (env : ToolEnv) (h : handlers name = none) :
    handle_tool_call hasConn env { name := name, call_id := call_id }
      = (false, []) ∧
    (handle_tool_call true env { name := "wave", call_id := call_id }).1
      = true := by
  constructor
  · unfold handle_tool_call
    cases hasConn <;> simp [h]
  · rfl

/-- Witness for C6, at the unregistered name "dance". -/
theorem c6_unknown_tool_never_raises_witness :
    handle_tool_call true sampleEnv { name := "dance", call_id := "call_1" }
      = (false, []) ∧
    (handle_tool_call true sampleEnv
        { name := "wave", call_id := "call_1" }).1 = true :=
  c6_unknown_tool_never_raises "dance" "call_1" true sampleEnv rfl

/-- Claim C7: when the camera capture raises (first conjunct) or the vision
call raises (second conjunct), the describe_surroundings handler catches
the error at its boundary and submits as the tool response an apology
string carrying the failure reason; run through the receive loop the event
is handled without any exception escaping (the step yields `some`, third
conjunct). -/
theorem c7_describe_failure_apology (call_id e t t2 : String)
    (vis : Except String String) (bs : List Nat) (conn : Option Unit)
    (sess : Option SessionVal) (cb : Bool) :
    _handle_describe_surroundings true
        { cameraResult := Except.error e, visionResult := vis,
          currentTime := t } call_id
      = [ConnOp.itemCreate call_id "Let me look...",
         ConnOp.itemCreate call_id
           ("Sorry, I had trouble processing the image: "
             ++ ("Camera capture failed: " ++ e))] ∧
    _handle_describe_surroundings true
        { cameraResult := Except.ok bs, visionResult := Except.error e,
          currentTime := t2 } call_id
      = [ConnOp.itemCreate call_id "Let me look...",
         ConnOp.itemCreate call_id
           ("Sorry, I had trouble processing the image: " ++ e)] ∧
    processEvent
        { cameraResult := Except.error e, visionResult := vis,
          currentTime := t }
        { connection := conn, session := sess, connected := cb,
          toolManagerConn := true }
        (ServerEvent.functionCallArgumentsDone
          { name := "describe_surroundings", call_id := call_id })
      = some ({ connection := conn, session := sess, connected := cb,
                toolManagerConn := true },
              [ConnOp.itemCreate call_id "Let me look...",
               ConnOp.itemCreate call_id
                 ("Sorry, I had trouble processing the image: "
                   ++ ("Camera capture failed: " ++ e)),
               ConnOp.responseCreate],
              []) := by
  refine ⟨rfl, rfl, rfl⟩

/-- Claim C1 counterexample: an invocation of the unregistered tool "dance"
is answered by zero response items for its call id (the claim requires
exactly one), and an invocation of the registered tool
describe_surroundings is answered by two response items for its call id
(the claim forbids more than one). -/
theorem c1_counterexample :
    responsesFor "call_1"
        (handle_tool_call true sampleEnv
          { name := "dance", call_id := "call_1" }).2 = 0 ∧
    responsesFor "call_2"
        (handle_tool_call true sampleEnv
          { name := "describe_surroundings", call_id := "call_2" }).2 = 2 :=
  ⟨rfl, rfl⟩

/-- Claim C1 as amended: with a connection, a dispatched invocation is
answered by exactly two response items bearing its call identifier when the
tool is describe_surroundings (the "Let me look..." acknowledgement plus
the result or apology), exactly one when the tool is wave or
get_current_time, and zero when the name is unregistered; with no
connection nothing is submitted. -/
theorem c1_amended_response_counts (env : ToolEnv) (name call_id : String) :
    responsesFor call_id
        (handle_tool_call true env { name := name, call_id := call_id }).2
      = (if name = "describe_surroundings" then 2
         else if name = "wave" ∨ name = "get_current_time" then 1
         else 0) ∧
    (handle_tool_call false env { name := name, call_id := call_id }).2
      = [] := by
  constructor
  · unfold handle_tool_call handlers
    by_cases h1 : name = "wave" <;> by_cases h2 : name = "get_current_time" <;>
      by_cases h3 : name = "describe_surroundings" <;>
        simp [h1, h2, h3, _handle_wave, _handle_get_current_time,
              _handle_describe_surroundings, _create_tool_response,
              responsesFor, List.countP_cons, List.countP_append]
    cases hc : capture_jpeg_cli env with
    | error e => simp [List.countP_cons]
    | ok d =>
        cases env.visionResult with
        | error e => simp [List.countP_cons]
        | ok c => simp [List.countP_cons]
  · rfl

/-- Claim C3 counterexample: fed a function-call-arguments-complete event
naming the unregistered tool "dance", the receive loop submits no response
item at all for that call id — the only connection operation is the
new-turn request — while the Dispatcher does return the failure marker. -/
theorem c3_counterexample :
    processEvent sampleEnv
        { connection := some (), session := some SessionVal.connDefault,
          connected := true, toolManagerConn := true }
        (ServerEvent.functionCallArgumentsDone
          { name := "dance", call_id := "call_7" })
      = some ({ connection := some (), session := some SessionVal.connDefault,
                connected := true, toolManagerConn := true },
              [ConnOp.responseCreate], []) ∧
    (handle_tool_call true sampleEnv
        { name := "dance", call_id := "call_7" }).1 = false :=
  ⟨rfl, rfl⟩

/-- Claim C3 as amended: on a function-call-arguments-complete event whose
tool name is unregistered, the Dispatcher returns the failure marker and
submits no response item for the call identifier; the Bridge nevertheless
still requests a new turn from the remote side. -/
theorem c3_amended_no_response_before_new_turn (name call_id : String)
    (env : ToolEnv) (conn : Option Unit) (sess : Option SessionVal)
    (cb : Bool) (h : handlers name = none) :
    handle_tool_call true env { name := name, call_id := call_id }
      = (false, []) ∧
    processEvent env
        { connection := conn, session := sess, connected := cb,
          toolManagerConn := true }
        (ServerEvent.functionCallArgumentsDone
          { name := name, call_id := call_id })
      = some ({ connection := conn, session := sess, connected := cb,
                toolManagerConn := true },
              [ConnOp.responseCreate], []) := by
  have h1 : handle_tool_call true env { name := name, call_id := call_id }
      = (false, []) := by
    unfold handle_tool_call
    simp [h]
  refine ⟨h1, ?_⟩
  show some _ = _
  rw [show (handle_tool_call true env
        { name := name, call_id := call_id }).2 = [] from congrArg Prod.snd h1]
  rfl

/-- Witness for C3 as amended, at the unregistered name "dance". -/
theorem c3_amended_no_response_before_new_turn_witness :
    handle_tool_call true sampleEnv
        { name := "dance", call_id := "call_7" } = (false, []) ∧
    processEvent sampleEnv
        { connection := some (), session := none, connected := true,
          toolManagerConn := true }
        (ServerEvent.functionCallArgumentsDone
          { name := "dance", call_id := "call_7" })
      = some ({ connection := some (), session := none, connected := true,
                toolManagerConn := true },
              [ConnOp.responseCreate], []) :=
  c3_amended_no_response_before_new_turn "dance" "call_7" sampleEnv
    (some ()) none true rfl

/-- Claim C2 counterexample: a `connect` run over the stream
[session.created] emits session_ready although no session-updated event
exists in the whole run (the claim requires one before the signal); and
after that clean exit the readiness flag is still true, a fresh `connect`
entry leaves it true, and ingestion is accepted immediately rather than
rejected until the created-configuration-updated sequence completes again
(the claim requires a reset to false). -/
theorem c2_counterexample :
    connect sampleEnv initState [ServerEvent.sessionCreated]
      = some ({ connection := some (),
                session := some SessionVal.connDefault,
                connected := true, toolManagerConn := true },
              [ConnOp.sessionUpdate sessionConfigMsg],
              [Signal.sessionReady]) ∧
    (connectEntry
        { connection := some (), session := some SessionVal.connDefault,
          connected := true, toolManagerConn := true }).connected = true ∧
    process_audio
        (connectEntry
          { connection := some (), session := some SessionVal.connDefault,
            connected := true, toolManagerConn := true }) [0]
      = (none, [ConnOp.appendAudio "AA=="]) :=
  ⟨rfl, rfl, rfl⟩

/-- Claim C2 as amended: over any `connect` run, the number of session_ready
emissions and the number of configuration submissions each equal the number
of session-created events consumed (each session-created produces exactly
one configuration submission followed by one session_ready, with no
session-updated event required first); the readiness flag is true at exit
of every run, and a fresh `connect` entered afterwards has it true already
at entry — it is set on connection establishment and never reset. -/
theorem c2_amended_ready_sequence (env : ToolEnv) (st : ProcessorState)
    (evs : List ServerEvent)
    (out : ProcessorState × List ConnOp × List Signal)
    (h : connect env st evs = some out) :
    countSessionReady out.2.2 = countSessionCreated evs ∧
    countSessionUpdateOps out.2.1 = countSessionCreated evs ∧
    out.1.connected = true ∧
    connect env out.1 [] = some (connectEntry out.1, [], []) ∧
    (connectEntry out.1).connected = true ∧
    ∀ st2 : ProcessorState,
      processEvent env st2 ServerEvent.sessionCreated
        = some ({ st2 with session := some SessionVal.connDefault },
                [ConnOp.sessionUpdate sessionConfigMsg],
                [Signal.sessionReady]) := by
  obtain ⟨c1, c2, c3⟩ := runLoop_counts env evs (connectEntry st) out h
  exact ⟨c1, c2, by rw [c3]; rfl, rfl, rfl, fun st2 => rfl⟩

/-- Witness for C2 as amended: the run over
[session.created, session.updated 7]. -/
theorem c2_amended_ready_sequence_witness :
    countSessionReady [Signal.sessionReady]
      = countSessionCreated
          [ServerEvent.sessionCreated, ServerEvent.sessionUpdated 7] ∧
    countSessionUpdateOps [ConnOp.sessionUpdate sessionConfigMsg]
      = countSessionCreated
          [ServerEvent.sessionCreated, ServerEvent.sessionUpdated 7] ∧
    ({ connection := some (), session := some (SessionVal.fromUpdate 7),
       connected := true, toolManagerConn := true } : ProcessorState).connected
      = true ∧
    connect sampleEnv
        { connection := some (), session := some (SessionVal.fromUpdate 7),
          connected := true, toolManagerConn := true } []
      = some (connectEntry
                { connection := some (),
                  session := some (SessionVal.fromUpdate 7),
                  connected := true, toolManagerConn := true }, [], []) ∧
    (connectEntry
        { connection := some (), session := some (SessionVal.fromUpdate 7),
          connected := true, toolManagerConn := true }).connected = true ∧
    ∀ st2 : ProcessorState,
      processEvent sampleEnv st2 ServerEvent.sessionCreated
        = some ({ st2 with session := some SessionVal.connDefault },
                [ConnOp.sessionUpdate sessionConfigMsg],
                [Signal.sessionReady]) :=
  c2_amended_ready_sequence sampleEnv initState
    [ServerEvent.sessionCreated, ServerEvent.sessionUpdated 7]
    ({ connection := some (), session := some (SessionVal.fromUpdate 7),
       connected := true, toolManagerConn := true },
     [ConnOp.sessionUpdate sessionConfigMsg], [Signal.sessionReady]) rfl
